import Mathlib

/-!
Verification development for the ADGM document-review pipeline
(`checker.py`, `utils.py`).  The Python source is shallowly embedded:
pure functions become Lean functions, the vector store and the
generative service become explicit inputs (`Vectorstore`, `GenEnv`),
exceptions become `Except`, and Python `dict`s carrying JSON data
become association lists over a `Json` value type.
-/

/-- JSON values, as produced by `json.loads`.  Numbers are modelled as
integers (no float appears in any property under study). -/
inductive Json where
  | null : Json
  | bool : Bool → Json
  | num : Int → Json
  | str : String → Json
  | arr : List Json → Json
  | obj : List (String × Json) → Json
deriving Repr

mutual

/-- Boolean equality on `Json` (structural). -/
def beqJson : Json → Json → Bool
  | .null, .null => true
  | .bool a, .bool b => a == b
  | .num a, .num b => a == b
  | .str a, .str b => a == b
  | .arr xs, .arr ys => beqJsonList xs ys
  | .obj xs, .obj ys => beqJsonEntries xs ys
  | _, _ => false

/-- Boolean equality on lists of `Json`. -/
def beqJsonList : List Json → List Json → Bool
  | [], [] => true
  | x :: xs, y :: ys => beqJson x y && beqJsonList xs ys
  | _, _ => false

/-- Boolean equality on lists of object entries. -/
def beqJsonEntries : List (String × Json) → List (String × Json) → Bool
  | [], [] => true
  | (k, v) :: xs, (k', v') :: ys => k == k' && beqJson v v' && beqJsonEntries xs ys
  | _, _ => false

end

mutual

/-- `beqJson` decides equality. -/
def beqJson_iff : ∀ a b : Json, beqJson a b = true ↔ a = b
  | .null, b => by cases b <;> simp [beqJson]
  | .bool x, b => by cases b <;> simp [beqJson]
  | .num x, b => by cases b <;> simp [beqJson]
  | .str x, b => by cases b <;> simp [beqJson]
  | .arr xs, b => by
    cases b <;> simp [beqJson]
    exact beqJsonList_iff xs _
  | .obj xs, b => by
    cases b <;> simp [beqJson]
    exact beqJsonEntries_iff xs _

/-- `beqJsonList` decides equality. -/
def beqJsonList_iff : ∀ xs ys : List Json, beqJsonList xs ys = true ↔ xs = ys
  | [], ys => by cases ys <;> simp [beqJsonList]
  | x :: xs, ys => by
    cases ys with
    | nil => simp [beqJsonList]
    | cons y ys =>
      simp [beqJsonList, Bool.and_eq_true, beqJson_iff x y, beqJsonList_iff xs ys]

/-- `beqJsonEntries` decides equality. -/
def beqJsonEntries_iff : ∀ xs ys : List (String × Json), beqJsonEntries xs ys = true ↔ xs = ys
  | [], ys => by cases ys <;> simp [beqJsonEntries]
  | (k, v) :: xs, ys => by
    cases ys with
    | nil => simp [beqJsonEntries]
    | cons y ys =>
      obtain ⟨k', v'⟩ := y
      simp [beqJsonEntries, Bool.and_eq_true, beqJson_iff v v', beqJsonEntries_iff xs ys]

end

instance : DecidableEq Json := fun a b => decidable_of_iff (beqJson a b = true) (beqJson_iff a b)

/-- A Python dict holding JSON data: an association list with unique
keys, in insertion order (the shape `json.loads` produces). -/
abbrev PyDict := List (String × Json)

/-- `d[k]` / `d.get(k)`: value of key `k`, if present. -/
def dictGet (d : PyDict) (k : String) : Option Json :=
  (List.find? (fun p => p.1 == k) d).map (fun p => p.2)

/-- `d.setdefault(k, v)`: insert `(k, v)` at the end when `k` is absent
(CPython dicts append new keys in insertion order). -/
def setdefault (d : PyDict) (k : String) (v : Json) : PyDict :=
  if (List.find? (fun p => p.1 == k) d).isSome then d else d ++ [(k, v)]

/-- Python whitespace, as in `str.strip()` and the regex class `\s`
(ASCII fragment: space, tab, newline, carriage return, vertical tab,
form feed). -/
def isPyWs (c : Char) : Bool :=
  c == ' ' || c == '\t' || c == '\n' || c == '\x0d' || c == '\x0b' || c == '\x0c'

/-- Drop leading Python whitespace. -/
def stripLeadingWs (cs : List Char) : List Char :=
  cs.dropWhile isPyWs

/-- `s.strip()`: remove leading and trailing whitespace. -/
def pyStrip (s : String) : String :=
  String.mk (((stripLeadingWs s.data).reverse.dropWhile isPyWs).reverse)

/-- `s.lower()`: per-character lowercasing (the texts involved are
ASCII, where Python's `str.lower` agrees with `Char.toLower`). -/
def pyLower (s : String) : String :=
  String.mk (s.data.map Char.toLower)

/-- Python's `sub in s` substring test, executably: some suffix of `s`
starts with `sub`. -/
def strOccursB (sub s : String) : Bool :=
  (List.range (s.data.length + 1)).any (fun i => sub.data.isPrefixOf (s.data.drop i))

/-- Whitespace accepted between JSON tokens by `json.loads`. -/
def isJsonWs (c : Char) : Bool :=
  c == ' ' || c == '\t' || c == '\n' || c == '\x0d'

/-- Skip inter-token whitespace while parsing JSON. -/
def skipJsonWs (cs : List Char) : List Char :=
  cs.dropWhile isJsonWs

/-- Parse the body of a JSON string literal (after the opening quote),
with the common escapes; control characters are rejected, as in strict
`json.loads`. -/
def parseStringBody : List Char → List Char → Option (String × List Char)
  | acc, c :: rest =>
    if c == '"' then some (String.mk acc.reverse, rest)
    else if c == '\\' then
      match rest with
      | e :: rest' =>
        if e == '"' then parseStringBody ('"' :: acc) rest'
        else if e == '\\' then parseStringBody ('\\' :: acc) rest'
        else if e == '/' then parseStringBody ('/' :: acc) rest'
        else if e == 'n' then parseStringBody ('\n' :: acc) rest'
        else if e == 't' then parseStringBody ('\t' :: acc) rest'
        else if e == 'r' then parseStringBody ('\x0d' :: acc) rest'
        else none
      | [] => none
    else if c.val < 32 then none
    else parseStringBody (c :: acc) rest
  | _, [] => none

/-- Parse a run of decimal digits. -/
def parseDigits : List Char → List Char × List Char
  | c :: rest =>
    if c.isDigit then
      let (ds, r) := parseDigits rest
      (c :: ds, r)
    else ([], c :: rest)
  | [] => ([], [])

/-- Parse a JSON integer literal (optional minus sign, no leading
zeros), as `json.loads` accepts for integers. -/
def parseNumberLit (cs : List Char) : Option (Int × List Char) :=
  let (neg, cs') := match cs with
    | '-' :: rest => (true, rest)
    | _ => (false, cs)
  match parseDigits cs' with
  | ([], _) => none
  | (d :: ds, rest) =>
    if d == '0' && ds ≠ [] then none
    else
      let n : Nat := (d :: ds).foldl (fun acc c => acc * 10 + (c.toNat - 48)) 0
      some (if neg then -(n : Int) else (n : Int), rest)

/-- Insert a key into an object under construction: a repeated key
replaces the earlier value in place (CPython dict semantics, which
`json.loads` uses for duplicate keys). -/
def objInsert : List (String × Json) → String → Json → List (String × Json)
  | [], k, v => [(k, v)]
  | (k', v') :: rest, k, v =>
    if k' == k then (k', v) :: rest else (k', v') :: objInsert rest k v

/-- After one array element (given the value parser for the current
fuel level): expect `, value` repeatedly, then `]`. -/
def parseArrayTailF (pv : List Char → Option (Json × List Char)) :
    Nat → List Json → List Char → Option (List Json × List Char)
  | 0, _, _ => none
  | Nat.succ n, acc, cs =>
    match skipJsonWs cs with
    | ']' :: rest => some (acc, rest)
    | ',' :: rest =>
      (match pv rest with
       | none => none
       | some (v, rest') => parseArrayTailF pv n (acc ++ [v]) rest')
    | _ => none

/-- One `"key" : value` member of a JSON object (given the value
parser). -/
def parseMemberF (pv : List Char → Option (Json × List Char)) (cs : List Char) :
    Option (String × Json × List Char) :=
  match skipJsonWs cs with
  | '"' :: rest =>
    (match parseStringBody [] rest with
     | none => none
     | some (k, rest') =>
       match skipJsonWs rest' with
       | ':' :: rest2 =>
         (match pv rest2 with
          | none => none
          | some (v, rest3) => some (k, v, rest3))
       | _ => none)
  | _ => none

/-- After one object member (given the value parser): expect
`, member` repeatedly, then `}`. -/
def parseObjTailF (pv : List Char → Option (Json × List Char)) :
    Nat → List (String × Json) → List Char → Option (List (String × Json) × List Char)
  | 0, _, _ => none
  | Nat.succ n, acc, cs =>
    match skipJsonWs cs with
    | '}' :: rest => some (acc, rest)
    | ',' :: rest =>
      (match parseMemberF pv rest with
       | none => none
       | some (k, v, rest') => parseObjTailF pv n (objInsert acc k v) rest')
    | _ => none

/-- Fuel-indexed recursive-descent JSON value parser modelling
`json.loads` on the integer/string/array/object fragment (the fuel is
a recursion bound, an embedding artifact; it is always instantiated
large enough for the input). -/
def parseValue : Nat → List Char → Option (Json × List Char)
  | 0, _ => none
  | Nat.succ fuel, cs =>
    match skipJsonWs cs with
    | 'n' :: 'u' :: 'l' :: 'l' :: rest => some (Json.null, rest)
    | 't' :: 'r' :: 'u' :: 'e' :: rest => some (Json.bool true, rest)
    | 'f' :: 'a' :: 'l' :: 's' :: 'e' :: rest => some (Json.bool false, rest)
    | '"' :: rest => (parseStringBody [] rest).map (fun p => (Json.str p.1, p.2))
    | '[' :: rest =>
      (match skipJsonWs rest with
       | ']' :: rest' => some (Json.arr [], rest')
       | body =>
         match parseValue fuel body with
         | none => none
         | some (v, rest') =>
           match parseArrayTailF (parseValue fuel) fuel [v] rest' with
           | none => none
           | some (vs, rest2) => some (Json.arr vs, rest2))
    | '{' :: rest =>
      (match skipJsonWs rest with
       | '}' :: rest' => some (Json.obj [], rest')
       | body =>
         match parseMemberF (parseValue fuel) body with
         | none => none
         | some (k, v, rest') =>
           match parseObjTailF (parseValue fuel) fuel (objInsert [] k v) rest' with
           | none => none
           | some (kvs, rest2) => some (Json.obj kvs, rest2))
    | other => (parseNumberLit other).map (fun p => (Json.num p.1, p.2))

/-- `json.loads`: parse one JSON value and require only whitespace to
follow (otherwise `json.loads` raises, modelled as `none`). -/
def pyLoads (s : String) : Option Json :=
  match parseValue (s.data.length + 1) s.data with
  | some (v, rest) => if skipJsonWs rest = [] then some v else none
  | none => none

/-! ## `utils.py` -/

/-- `CHECKLIST`: required document types per process
(`utils.py` lines 3-34), in source order. -/
def CHECKLIST : List (String × List String) :=
  [("Company Incorporation",
    ["Articles of Association", "Memorandum of Association", "Board Resolution",
     "Shareholder Resolution", "Incorporation Application Form", "UBO Declaration Form",
     "Register of Members and Directors", "Change of Registered Address Notice"]),
   ("Employment & HR",
    ["Standard Employment Contract", "Employee Handbook", "Offer Letter"]),
   ("Licensing",
    ["Licensing Application Form", "Supporting Documents for License"]),
   ("Compliance & Risk",
    ["Data Protection Policy", "Compliance Policy", "Risk Assessment"]),
   ("Commercial Agreements",
    ["NDA", "Consultancy Agreement", "Service Agreement", "Sale/Purchase Agreement"])]

/-- `CHECKLIST.get(process, [])`. -/
def checklistGet (process : String) : List String :=
  ((List.find? (fun p => p.1 == process) CHECKLIST).map (fun p => p.2)).getD []

/-- `DOC_TYPE_KEYWORDS` (`utils.py` lines 37-54), in source order. -/
def DOC_TYPE_KEYWORDS : List (String × List String) :=
  [("Articles of Association", ["articles of association", "aoa", "article of association"]),
   ("Memorandum of Association", ["memorandum of association", "moa", "memorandum"]),
   ("Board Resolution", ["board resolution", "resolution of the board"]),
   ("Shareholder Resolution",
    ["shareholder resolution", "resolution of the shareholders", "shareholders\x27 resolution"]),
   ("Incorporation Application Form",
    ["incorporation application", "application for incorporation", "form ra"]),
   ("UBO Declaration Form", ["ubo declaration", "ultimate beneficial owner", "ubo form"]),
   ("Register of Members and Directors",
    ["register of members", "register of directors", "register of members and directors"]),
   ("Change of Registered Address Notice",
    ["change of registered address", "registered address notice"]),
   ("Standard Employment Contract",
    ["employment contract", "standard employment contract", "employee contract"]),
   ("Offer Letter", ["offer letter", "employment offer"]),
   ("NDA", ["non-disclosure agreement", "nda", "confidentiality agreement"]),
   ("Consultancy Agreement", ["consultancy agreement", "consultant agreement"]),
   ("Service Agreement", ["service agreement", "services agreement"]),
   ("Data Protection Policy", ["data protection policy", "dpr", "data protection"]),
   ("Compliance Policy", ["compliance policy", "compliance manual"]),
   ("Licensing Application Form",
    ["licensing application", "license application", "application for license"])]

/-- `detect_doc_type_from_text` (`utils.py` lines 62-75): a document
type is detected when any of its keywords occurs in the lowercased
text.  The source returns `list(matches)` for a set built while
scanning keywords; dict keys are unique, so each detected name occurs
once — the model fixes the (unspecified) order to catalog order, and
all claims about this function are membership-based. -/
def detect_doc_type_from_text (text : String) : List String :=
  let t := pyLower text
  (DOC_TYPE_KEYWORDS.filter (fun p => p.2.any (fun kw => strOccursB kw t))).map (fun p => p.1)

/-- `checklist_comparison_for_process` (`utils.py` lines 108-114):
`(required, missing, uploaded_count, required_count)` with
`missing = list(set(required) - set(uploaded_types))`.  The required
lists carry no duplicates, so the set difference is modelled as a
filter of `required` (the unspecified Python set order is fixed to
`required` order; the claims about `missing` are order-insensitive). -/
def checklist_comparison_for_process (process : String) (uploaded_types : List String) :
    List String × List String × Nat × Nat :=
  let required := checklistGet process
  let missing := required.filter (fun r => !(uploaded_types.contains r))
  (required, missing, uploaded_types.length, required.length)

/-- Python `sep.join(parts)`. -/
def pyJoin (sep : String) : List String → String
  | [] => ""
  | [a] => a
  | a :: rest => a ++ sep ++ pyJoin sep rest

/-- The leading sentence of the checklist message (`utils.py`
lines 124 and 130, identical in both branches). -/
def checklistIntro (process : String) : String :=
  "It appears that you’re trying to " ++
    (if process == "Company Incorporation" then "incorporate a company in ADGM"
     else "perform the process: " ++ process) ++ ". "

/-- The missing-documents sentence of the checklist message
(`utils.py` lines 125-126). -/
def missingMsg (uploaded_count required_count : Nat) (missing : List String) : String :=
  "Based on our reference list, you have " ++
    ("uploaded " ++ toString uploaded_count ++ " out of " ++ toString required_count ++
      " required documents") ++
    ". The missing document(s) appears to be: " ++
    ("\x27" ++ pyJoin "\x27, \x27" missing ++ "\x27") ++ "."

/-- `build_user_checklist_message` (`utils.py` lines 116-133);
`if missing:` is Python truthiness, i.e. non-emptiness. -/
def build_user_checklist_message (process : String) (uploaded_types : List String) : String :=
  let r := checklist_comparison_for_process process uploaded_types
  let missing := r.2.1
  let uploaded_count := r.2.2.1
  let required_count := r.2.2.2
  if !missing.isEmpty then
    checklistIntro process ++ missingMsg uploaded_count required_count missing
  else
    checklistIntro process ++
      "All required documents (" ++ toString required_count ++ ") appear to be uploaded."

/-! ## `checker.py` -/

/-- `_clean_snippet` (`checker.py` lines 18-22); `length` is passed
explicitly (the source uses a default of 1000). -/
def clean_snippet (length : Nat) (s : String) : String :=
  let s := pyStrip s
  if s.length > length then String.mk (s.data.take length) ++ "..." else s

/-- One retrieval result (a LangChain `Document`): free-form string
metadata plus the passage text. -/
structure Doc where
  metadata : List (String × String)
  page_content : String

/-- `meta.get(k)` on the metadata dict. -/
def metaGet (m : List (String × String)) (k : String) : Option String :=
  (List.find? (fun p => p.1 == k) m).map (fun p => p.2)

/-- The vector store as seen by `retrieve_context`: the outcome of
`similarity_search(query, k)` (which may raise, modelled as
`Except`), and whether the object has the
`similarity_search_with_relevance_scores` attribute probed by the
source's `hasattr` check. -/
structure Vectorstore where
  search : String → Nat → Except Unit (List Doc)
  supportsRelevanceScores : Bool

/-- Truthiness of the `category_filter` argument (`None` and the empty
string are falsy). -/
def pyTruthyStrOpt : Option String → Bool
  | none => false
  | some s => !(s == "")

/-- `retrieve_context` (`checker.py` lines 24-47).  Both branches of
the source's `if category_filter and hasattr(...)` run the same plain
`similarity_search(query, k=k)`; any exception yields `docs = []`;
an empty `docs` yields `""`; otherwise the pieces are joined with
blank lines. -/
def retrieve_context (vs : Vectorstore) (query : String) (k : Nat)
    (category_filter : Option String) : String :=
  let searchResult :=
    if pyTruthyStrOpt category_filter && vs.supportsRelevanceScores then
      vs.search query k
    else
      vs.search query k
  let docs := match searchResult with
    | Except.ok ds => ds
    | Except.error _ => []
  if docs.isEmpty then ""
  else
    pyJoin "\n\n" (docs.map (fun d =>
      let src := ((metaGet d.metadata "source").getD ((metaGet d.metadata "url").getD "unknown"))
      "Source: " ++ src ++ "\n" ++ clean_snippet 1000 d.page_content))

/-- Regex word character (`\w`, ASCII fragment: the texts matched are
lowercased ASCII). -/
def isWordChar (c : Char) : Bool :=
  c.isAlphanum || c == '_'

/-- `re.search` of a word-bounded literal alternative: the pattern
occurs at some position with a word boundary on each side (the
alternatives of the jurisdiction regex all start and end with word
characters, so `\b` demands a non-word neighbour or the text edge). -/
def wordBoundedOccursB (pat s : String) : Bool :=
  (List.range (s.data.length + 1)).any (fun i =>
    pat.data.isPrefixOf (s.data.drop i) &&
    (match i with
     | 0 => true
     | Nat.succ j => match s.data.get? j with
       | some c => !isWordChar c
       | none => false) &&
    (match s.data.get? (i + pat.data.length) with
     | some c => !isWordChar c
     | none => true))

/-- The jurisdiction regex
`\b(uae federal courts|federal courts of the uae|uae courts)\b`
(`checker.py` line 57). -/
def jurisdictionRegexB (lt : String) : Bool :=
  wordBoundedOccursB "uae federal courts" lt ||
  wordBoundedOccursB "federal courts of the uae" lt ||
  wordBoundedOccursB "uae courts" lt

/-- `"signature:"` followed by a whitespace character occurs
(the `signature:\s` alternative of the signature regex). -/
def signatureColonWsB (lt : String) : Bool :=
  (List.range (lt.data.length + 1)).any (fun i =>
    "signature:".data.isPrefixOf (lt.data.drop i) &&
    (match lt.data.get? (i + 10) with
     | some c => isPyWs c
     | none => false))

/-- The signature regex `signature|signed by|signature:\s|for and on behalf of`
(`checker.py` line 77): true iff some alternative matches somewhere. -/
def signatureRegexB (lt : String) : Bool :=
  strOccursB "signature" lt || strOccursB "signed by" lt ||
  signatureColonWsB lt || strOccursB "for and on behalf of" lt

/-- The fixed ambiguous-phrase list (`checker.py` lines 89-92). -/
def ambiguous_phrases : List String :=
  ["best efforts", "reasonable endeavours", "endeavour", "as soon as reasonably practicable",
   "subject to availability", "to the extent possible", "where possible"]

/-- Issue dict produced by the heuristic rules: the five keys in
source order. -/
def mkIssue (paragraph_index : Int) (issue severity suggestion citation : String) : PyDict :=
  [("paragraph_index", Json.num paragraph_index), ("issue", Json.str issue),
   ("severity", Json.str severity), ("suggestion", Json.str suggestion),
   ("citation", Json.str citation)]

/-- The ambiguous-language issue for phrase `p` (`checker.py`
lines 95-101). -/
def ambiguousIssue (paragraph_index : Int) (p : String) : PyDict :=
  mkIssue paragraph_index
    ("Ambiguous/non-binding phrase detected: \x27" ++ p ++ "\x27.")
    "Low"
    ("Consider replacing \x27" ++ p ++ "\x27 with a precise obligation or timescale.")
    ""

/-- `_simple_heuristic_checks` (`checker.py` lines 49-114). -/
def simple_heuristic_checks (clause_text : String) (paragraph_index : Int) : List PyDict :=
  let lt := pyLower clause_text
  let jurisdiction :=
    if jurisdictionRegexB lt then
      [mkIssue paragraph_index
        "Incorrect jurisdiction referenced (mentions UAE federal courts)."
        "High"
        "Replace with explicit ADGM jurisdiction clause, e.g. \x27This agreement is governed by the laws of the Abu Dhabi Global Market (ADGM).\x27"
        "ADGM Companies Regulations 2020, Art. 6 (example)"]
    else []
  let governingLaw :=
    if strOccursB "governed by" lt && !(strOccursB "adgm" lt) then
      [mkIssue paragraph_index
        "Governing law clause present but does not specify ADGM."
        "High"
        "Modify governing law clause to explicitly reference ADGM jurisdiction."
        "ADGM Companies Regulations 2020, Art. 6 (example)"]
    else []
  let signature :=
    if !(signatureRegexB lt) then
      if lt.length > 200 &&
          (strOccursB "agreement" lt || strOccursB "this agreement" lt ||
           strOccursB "in witness" lt) then
        [mkIssue paragraph_index
          "Possible missing signature / execution block."
          "Medium"
          "Ensure there is a signature block with printed name, title and date."
          "ADGM execution signature guidance (template)"]
      else []
    else []
  let ambiguous :=
    match ambiguous_phrases.find? (fun p => strOccursB p lt) with
    | some p => [ambiguousIssue paragraph_index p]
    | none => []
  let ubo :=
    if (strOccursB "shareholder" lt || strOccursB "shares" lt ||
        strOccursB "beneficial owner" lt) &&
       !(strOccursB "ubo" lt) && !(strOccursB "ultimate beneficial owner" lt) then
      [mkIssue paragraph_index
        "Clause concerns ownership/shareholders but UBO disclosures are not referenced."
        "Medium"
        "Ensure the document includes/links to an UBO declaration form where relevant."
        "ADGM registry/UBO guidance (check ADGM docs)"]
    else []
  jurisdiction ++ governingLaw ++ signature ++ ambiguous ++ ubo

/-- Index of the first occurrence of `c`. -/
def firstIdxOf (c : Char) (cs : List Char) : Option Nat :=
  cs.findIdx? (fun x => x == c)

/-- Index of the last occurrence of `c`. -/
def lastIdxOf (c : Char) (cs : List Char) : Option Nat :=
  (cs.reverse.findIdx? (fun x => x == c)).map (fun k => cs.length - 1 - k)

/-- First index of `c` strictly below `j`, if any (the first occurrence
overall is the only candidate). -/
def firstIdxBelow (c : Char) (j : Nat) (cs : List Char) : Option Nat :=
  match firstIdxOf c cs with
  | some i => if i < j then some i else none
  | none => none

/-- `re.search(r'(\[.*\])', text, flags=re.DOTALL)` for bracket pair
`op`/`cl` (`checker.py` lines 131-132): leftmost match start is the
first `op` that has some `cl` after it; the greedy `.*` (DOTALL, so
newlines included) extends the match to the last `cl` of the whole
text. -/
def greedySpan (op cl : Char) (s : String) : Option String :=
  let cs := s.data
  match lastIdxOf cl cs with
  | none => none
  | some j =>
    match firstIdxBelow op j cs with
    | none => none
    | some i => some (String.mk ((cs.drop i).take (j - i + 1)))

/-- The span a *non-greedy* `\[.*?\]` (DOTALL) would match: same
leftmost start, but ending at the first `cl` after it.  Modelled from
the spec: "locate the first `[...]` span ... via non-greedy-across-
newlines matching" — used to compare the spec's words against the
source's greedy regex. -/
def nonGreedySpan (op cl : Char) (s : String) : Option String :=
  let cs := s.data
  match lastIdxOf cl cs with
  | none => none
  | some j =>
    match firstIdxBelow op j cs with
    | none => none
    | some i =>
      match (cs.drop (i + 1)).findIdx? (fun x => x == cl) with
      | some d => some (String.mk ((cs.drop i).take (d + 2)))
      | none => none

/-- `re.sub(r',\s*([\]}])', r'\1', candidate)` (`checker.py` line 144):
left-to-right scan replacing a comma, optional whitespace and a closing
bracket/brace by the bracket alone, resuming after the replacement.
The fuel is a recursion bound (an embedding artifact); every step
consumes at least one character, so `length + 1` fuel always
suffices. -/
def fixGo : Nat → List Char → List Char
  | 0, cs => cs
  | _, [] => []
  | Nat.succ n, c :: rest =>
    if c == ',' then
      match stripLeadingWs rest with
      | b :: rest' =>
        if b == ']' || b == '}' then b :: fixGo n rest' else c :: fixGo n rest
      | [] => c :: fixGo n rest
    else c :: fixGo n rest

/-- The trailing-comma repair pass, on strings. -/
def fixTrailingCommas (s : String) : String :=
  String.mk (fixGo (s.data.length + 1) s.data)

/-- `_safe_parse_json` (`checker.py` lines 116-149), parameterised by
the JSON parser `loads` (the stdlib `json.loads`, external library
code; instantiated with `pyLoads` at concrete inputs). -/
def safe_parse_json (loads : String → Option Json) (text0 : String) : Option Json :=
  let text := pyStrip text0
  if text == "" then none
  else
    match loads text with
    | some v => some v
    | none =>
      let first_array := greedySpan '[' ']' text
      let first_obj := greedySpan '{' '}' text
      let candidate : Option String :=
        match first_array with
        | some a => some a
        | none =>
          match first_obj with
          | some o => some o
          | none => none
      match candidate with
      | none => none
      | some c =>
        match loads c with
        | some v => some v
        | none =>
          match loads (fixTrailingCommas c) with
          | some v => some v
          | none => none

/-- First defined result of a list of parse attempts. -/
def firstSome : List (Option Json) → Option Json
  | [] => none
  | some v :: _ => some v
  | none :: rest => firstSome rest

/-- The candidate substrings in the order the spec prescribes: the
first `[...]` span, or failing that the first `{...}` span. -/
def spanCandidates (span : Char → Char → String → Option String) (text : String) : List String :=
  match span '[' ']' text with
  | some a => [a]
  | none =>
    match span '{' '}' text with
    | some o => [o]
    | none => []

/-- Modelled from the spec: the tolerant-extraction strategy order
(direct parse, then the located span, then its comma-repaired form),
with the span-location function as a parameter. -/
def safeParseSpecOrder (span : Char → Char → String → Option String)
    (loads : String → Option Json) (text0 : String) : Option Json :=
  let text := pyStrip text0
  if text == "" then none
  else
    firstSome ([loads text] ++
      (spanCandidates span text).flatMap (fun c => [loads c, loads (fixTrailingCommas c)]))

/-- Modelled from the spec: tolerant extraction with
non-greedy-across-newlines span location, as the spec's words
describe it. -/
def safe_parse_json_specNG (loads : String → Option Json) (text0 : String) : Option Json :=
  safeParseSpecOrder nonGreedySpan loads text0

/-- Python `for it in parsed`: arrays iterate elements, dicts iterate
keys, strings iterate 1-character strings; iterating any other value
raises `TypeError`. -/
def pyIter : Json → Except Unit (List Json)
  | Json.arr xs => Except.ok xs
  | Json.obj kvs => Except.ok (kvs.map (fun p => Json.str p.1))
  | Json.str s => Except.ok (s.data.map (fun c => Json.str (String.mk [c])))
  | _ => Except.error ()

/-- The generative-service side of a `check_clause` run: whether
`GEN_KEY` is set (`checker.py` line 10), and the outcome of the
`generate_content` call plus `.text` access (`.error` models any
raised exception, e.g. a timeout). -/
structure GenEnv where
  genKey : Bool
  llm : Except Unit String

/-- The `issue` strings of a list of issue dicts (each heuristic dict
carries a string `issue`). -/
def issueTexts (l : List PyDict) : List String :=
  l.filterMap (fun d =>
    match dictGet d "issue" with
    | some (Json.str s) => some s
    | _ => none)

/-- The merge condition of `checker.py` line 209: Python's
`o.get('issue') not in existing_issues_texts` is false only when the
value is a string equal to a member of the set. -/
def issueAlreadyListed (existing : List String) (o : PyDict) : Bool :=
  match dictGet o "issue" with
  | some (Json.str s) => existing.contains s
  | _ => false

/-- The model-output filter of `checker.py` lines 199-205: keep
mappings that (after `setdefault`) have at least `issue`, `severity`
and `suggestion`. -/
def modelOut (paragraph_index : Int) (items : List Json) : List PyDict :=
  items.filterMap (fun it =>
    match it with
    | Json.obj kvs =>
      let it2 := setdefault kvs "paragraph_index" (Json.num paragraph_index)
      if (dictGet it2 "issue").isSome && (dictGet it2 "severity").isSome &&
          (dictGet it2 "suggestion").isSome then
        some it2
      else none
    | _ => none)

/-- `check_clause` (`checker.py` lines 151-216), with the vector store
and the generative service as explicit inputs.  The prompt strings of
lines 164-180 do not influence the embedded control flow and are not
reproduced; the retrieved context is bound (line 161) before the
`GEN_KEY` test, exactly as in the source. -/
def check_clause (clause_text : String) (paragraph_index : Int) (vs : Vectorstore)
    (env : GenEnv) : List PyDict :=
  let issues := simple_heuristic_checks clause_text paragraph_index
  let _context := retrieve_context vs clause_text 4 none
  if !env.genKey then issues
  else
    match env.llm with
    | Except.error _ => issues
    | Except.ok rtext =>
      match safe_parse_json pyLoads (pyStrip rtext) with
      | none => issues
      | some parsed =>
        match pyIter parsed with
        | Except.error _ => issues
        | Except.ok items =>
          let out := modelOut paragraph_index items
          let existing := issueTexts issues
          out.foldl (fun acc o =>
            if issueAlreadyListed existing o then acc else acc ++ [o]) issues

/-! ## Concrete instances used in the claims -/

/-- Is the dict's `severity` value the string `"Low"`? -/
def isLowSeverity (d : PyDict) : Bool :=
  match dictGet d "severity" with
  | some (Json.str s) => s == "Low"
  | _ => false

/-- A vector store whose search succeeds with no results. -/
def vsEmpty : Vectorstore :=
  { search := fun _ _ => Except.ok [], supportsRelevanceScores := false }

/-- A vector store whose search raises. -/
def vsFailing : Vectorstore :=
  { search := fun _ _ => Except.error (), supportsRelevanceScores := false }

/-- A vector store that claims relevance-score support and returns one
passage whose `category` metadata is `"Employment"`. -/
def vsEmployment : Vectorstore :=
  { search := fun _ _ => Except.ok
      [{ metadata := [("category", "Employment"), ("source", "doc1")],
         page_content := "Employment text" }],
    supportsRelevanceScores := true }

/-- A generative response carrying the same finding twice. -/
def envDupFindings : GenEnv :=
  { genKey := true,
    llm := Except.ok "[\x7b\"issue\":\"X\",\"severity\":\"Low\",\"suggestion\":\"s\"\x7d,\x7b\"issue\":\"X\",\"severity\":\"Low\",\"suggestion\":\"s\"\x7d]" }

/-- A generative response carrying one well-formed finding. -/
def envOneFinding : GenEnv :=
  { genKey := true,
    llm := Except.ok "[\x7b\"issue\":\"Y\",\"severity\":\"High\",\"suggestion\":\"s\"\x7d]" }

/-- A generative response whose JSON is a top-level object. -/
def objResponseText : String :=
  "\x7b\"issue\":\"x\",\"severity\":\"High\",\"suggestion\":\"s\"\x7d"

/-- Scenario 2's clause. -/
def clauseScenario2 : String :=
  "The parties shall use reasonable endeavours to complete the transfer."

/-- The uploads of the checklist counterexample: three document types,
none of them required for the `"Licensing"` process. -/
def uploadsLicensingCex : List String :=
  ["NDA", "Offer Letter", "Data Protection Policy"]

/-! ## Helper lemmas -/

/-- `strOccursB` decides the substring relation (infix on character
lists). -/
theorem strOccursB_iff (sub s : String) :
    strOccursB sub s = true ↔ sub.data <:+: s.data := by
  constructor
  · intro h
    simp only [strOccursB, List.any_eq_true, List.mem_range] at h
    obtain ⟨i, _, hp⟩ := h
    rw [ List.isPrefixOf_iff_prefix] at hp
    obtain ⟨r, hr⟩ := hp
    exact ⟨s.data.take i, r, by rw [List.append_assoc, hr, List.take_append_drop]⟩
  · rintro ⟨pre, post, hsplit⟩
    simp only [strOccursB, List.any_eq_true, List.mem_range]
    refine ⟨pre.length, ?_, ?_⟩
    · have : pre.length ≤ s.data.length := by
        rw [← hsplit]
        simp
      omega
    · rw [ List.isPrefixOf_iff_prefix, ← hsplit, List.append_assoc, List.drop_left]
      exact List.prefix_append _ _
  
/-- The merge loop of `check_clause` appends exactly the entries whose
predicate is false, preserving the initial segment. -/
theorem foldl_merge {α : Type} (P : α → Bool) :
    ∀ (out init : List α),
      out.foldl (fun acc o => if P o then acc else acc ++ [o]) init =
        init ++ out.filter (fun o => !(P o))
  | [], init => by simp
  | o :: out, init => by
    by_cases h : P o
    · rw [List.foldl_cons, if_pos h, foldl_merge P out init,
        List.filter_cons_of_neg (by simp [h])]
    · rw [List.foldl_cons, if_neg h, foldl_merge P out (init ++ [o]),
        List.filter_cons_of_pos (by simp [h])]
      simp
  
/-- Lowercasing distributes over concatenation (it maps characters
independently). -/
theorem pyLower_data_append (t u : String) :
    (pyLower (t ++ u)).data = (pyLower t).data ++ (pyLower u).data := by
  simp [pyLower]

/-! ## Claims -/

/-- C2: with the generative-service credential absent (`GEN_KEY`
falsy), `check_clause` returns exactly the heuristic issues, in order,
for every possible generative-service outcome — the result does not
depend on the generative service at all. -/
theorem checkClause_degraded_mode (clause : String) (pidx : Int) (vs : Vectorstore)
    (llm : Except Unit String) :
    check_clause clause pidx vs { genKey := false, llm := llm } =
      simple_heuristic_checks clause pidx := rfl

/-- Witness for C2 at a concrete clause. -/
theorem checkClause_degraded_mode_witness :
    check_clause "Sample clause." 3 vsEmpty { genKey := false, llm := Except.error () } =
      simple_heuristic_checks "Sample clause." 3 :=
  checkClause_degraded_mode "Sample clause." 3 vsEmpty (Except.error ())

/-- C3 (amended): an exception in the generative-analysis step is
caught in `check_clause`, which returns exactly the heuristic issues;
an exception in the retrieval step is caught inside
`retrieve_context` itself, which returns the empty context (after
which processing continues with the generative step). -/
theorem checkClause_exception_fallback :
    (∀ (clause : String) (pidx : Int) (vs : Vectorstore),
      check_clause clause pidx vs { genKey := true, llm := Except.error () } =
        simple_heuristic_checks clause pidx) ∧
    (∀ (vs : Vectorstore) (q : String) (k : Nat) (f : Option String),
      vs.search q k = Except.error () → retrieve_context vs q k f = "") := by
  constructor
  · intro clause pidx vs
    rfl
  · intro vs q k f hs
    simp [retrieve_context, hs]

/-- Witness for C3's amended statement. -/
theorem checkClause_exception_fallback_witness :
    vsFailing.search "q" 4 = Except.error () ∧
      retrieve_context vsFailing "q" 4 none = "" ∧
      check_clause "clause" 0 vsFailing { genKey := true, llm := Except.error () } =
        simple_heuristic_checks "clause" 0 :=
  ⟨rfl, checkClause_exception_fallback.2 vsFailing "q" 4 none rfl,
    checkClause_exception_fallback.1 "clause" 0 vsFailing⟩

/-- C3 counterexample: when the retrieval step raises but the
generative call succeeds with a finding, `check_clause` does *not*
return the heuristics-only list — refuting the claim that a retrieval
exception makes the function return exactly the heuristic issues. -/
theorem checkClause_retrieval_exception_cex :
    vsFailing.search "" 4 = Except.error () ∧
      issueTexts (check_clause "" 0 vsFailing envOneFinding) = ["Y"] ∧
      issueTexts (simple_heuristic_checks "" 0) = [] ∧
      check_clause "" 0 vsFailing envOneFinding ≠ simple_heuristic_checks "" 0 := by
  refine ⟨rfl, by decide, by decide, fun h => ?_⟩
  have h2 : issueTexts (check_clause "" 0 vsFailing envOneFinding) =
      issueTexts (simple_heuristic_checks "" 0) := by rw [h]
  have h3 : issueTexts (check_clause "" 0 vsFailing envOneFinding) = ["Y"] := by decide
  have h4 : issueTexts (simple_heuristic_checks "" 0) = ([] : List String) := by decide
  rw [h3, h4] at h2
  exact List.noConfusion h2

/-- C4: the category filter of `retrieve_context` has no effect at
all: for every vector store — including one advertising
relevance-score support — the result equals the unfiltered result,
and at the failing input a passage whose `category` metadata is
`"Employment"` is returned unchanged under filter `"Licensing"`. -/
theorem retrieveContext_filter_ignored :
    (∀ (vs : Vectorstore) (q : String) (k : Nat) (f : Option String),
      retrieve_context vs q k f = retrieve_context vs q k none) ∧
    vsEmployment.supportsRelevanceScores = true ∧
    retrieve_context vsEmployment "q" 4 (some "Licensing") =
      "Source: doc1\nEmployment text" ∧
    metaGet [("category", "Employment"), ("source", "doc1")] "category" = some "Employment" := by
  refine ⟨?_, rfl, by decide, rfl⟩
  intro vs q k f
  simp only [retrieve_context, ite_self]

/-- C10: when the tolerant parse of the model response yields a
top-level JSON object, `check_clause` iterates over the object's keys,
every key fails the mapping check (so `modelOut` keeps nothing), and
the returned list is exactly the heuristic issues. -/
theorem checkClause_object_response_dropped (clause : String) (pidx : Int)
    (vs : Vectorstore) (rtext : String) (kvs : List (String × Json))
    (hsp : safe_parse_json pyLoads (pyStrip rtext) = some (Json.obj kvs)) :
    check_clause clause pidx vs { genKey := true, llm := Except.ok rtext } =
      simple_heuristic_checks clause pidx ∧
    modelOut pidx (kvs.map (fun p => Json.str p.1)) = [] := by
  have hout : ∀ l : List (String × Json),
      modelOut pidx (l.map (fun p => Json.str p.1)) = [] := by
    intro l
    induction l with
    | nil => rfl
    | cons p rest ih => simpa [modelOut, List.map_cons, List.filterMap_cons] using ih
  refine ⟨?_, hout kvs⟩
  simp only [check_clause, hsp, pyIter, Bool.not_true, Bool.false_eq_true, if_false]
  rw [hout kvs]
  rfl

/-- Witness for C10 at a concrete object-shaped response. -/
theorem checkClause_object_response_dropped_witness :
    safe_parse_json pyLoads (pyStrip objResponseText) =
      some (Json.obj [("issue", Json.str "x"), ("severity", Json.str "High"),
        ("suggestion", Json.str "s")]) ∧
    check_clause "" 0 vsEmpty { genKey := true, llm := Except.ok objResponseText } =
      simple_heuristic_checks "" 0 :=
  ⟨by decide,
    (checkClause_object_response_dropped "" 0 vsEmpty objResponseText
      [("issue", Json.str "x"), ("severity", Json.str "High"), ("suggestion", Json.str "s")]
      (by decide)).1⟩

/-- C1 counterexample: a generative response repeating one finding
twice produces a result list with two identical `issue` strings — the
dedup set is computed once, before the merge loop, so duplicates
*within* the model output are kept. -/
theorem checkClause_dedup_cex :
    issueTexts (check_clause "" 0 vsEmpty envDupFindings) = ["X", "X"] := by
  decide

/-- C1 (amended): `check_clause` keeps the heuristic issues as an
unchanged prefix and appends only model findings whose `issue` text is
not among the *heuristic* issue texts; model findings are not
deduplicated against each other. -/
theorem checkClause_dedup_amended (clause : String) (pidx : Int) (vs : Vectorstore)
    (env : GenEnv) :
    ∃ tail,
      check_clause clause pidx vs env = simple_heuristic_checks clause pidx ++ tail ∧
      ∀ o ∈ tail,
        issueAlreadyListed (issueTexts (simple_heuristic_checks clause pidx)) o = false := by
  obtain ⟨gk, llm⟩ := env
  cases gk with
  | false => exact ⟨[], by simp [check_clause], by simp⟩
  | true =>
    cases llm with
    | error e => exact ⟨[], by simp [check_clause], by simp⟩
    | ok rtext =>
      cases hsp : safe_parse_json pyLoads (pyStrip rtext) with
      | none =>
        refine ⟨[], ?_, by simp⟩
        simp [check_clause, hsp]
      | some parsed =>
        cases hit : pyIter parsed with
        | error e =>
          refine ⟨[], ?_, by simp⟩
          simp [check_clause, hsp, hit]
        | ok items =>
          refine ⟨(modelOut pidx items).filter
            (fun o => !(issueAlreadyListed
              (issueTexts (simple_heuristic_checks clause pidx)) o)), ?_, ?_⟩
          · simp only [check_clause, hsp, hit, Bool.not_true, Bool.false_eq_true, if_false]
            exact foldl_merge _ _ _
          · intro o ho
            simpa using (List.mem_filter.mp ho).2

/-- Witness for C1's amended statement at a concrete input. -/
theorem checkClause_dedup_amended_witness :
    ∃ tail,
      check_clause "" 0 vsEmpty envOneFinding = simple_heuristic_checks "" 0 ++ tail ∧
      ∀ o ∈ tail,
        issueAlreadyListed (issueTexts (simple_heuristic_checks "" 0)) o = false :=
  checkClause_dedup_amended "" 0 vsEmpty envOneFinding

/-- C5 counterexample: on `"[1][2]"` the source's greedy span takes
the first `[` to the *last* `]`, yielding the unparsable `"[1][2]"`
and an overall `None`, while the spec's non-greedy location would take
`"[1]"` and succeed — the claim's "non-greedy" description of the
span-finding is false of the code. -/
theorem safeParse_nonGreedy_cex :
    safe_parse_json pyLoads "[1][2]" = none ∧
    safe_parse_json_specNG pyLoads "[1][2]" = some (Json.arr [Json.num 1]) :=
  ⟨by decide, by decide⟩

/-- C5 (amended): `_safe_parse_json` follows exactly the spec's
strategy order — direct parse, then the array span (preferred), else
the object span, each followed by the trailing-comma repair, `none`
only on total failure — but with *greedy* span location (first opening
bracket to last closing bracket, across newlines). -/
theorem safeParse_strategy_order (loads : String → Option Json) (text : String) :
    safe_parse_json loads text = safeParseSpecOrder greedySpan loads text := by
  unfold safe_parse_json safeParseSpecOrder spanCandidates
  cases he : pyStrip text == ""
  · cases hl : loads (pyStrip text) with
    | some v => simp [he, hl, firstSome]
    | none =>
      cases ha : greedySpan '[' ']' (pyStrip text) with
      | some a =>
        cases h1 : loads a with
        | some v => simp [he, hl, ha, h1, firstSome]
        | none =>
          cases h2 : loads (fixTrailingCommas a) with
          | some v => simp [he, hl, ha, h1, h2, firstSome]
          | none => simp [he, hl, ha, h1, h2, firstSome]
      | none =>
        cases ho : greedySpan '{' '}' (pyStrip text) with
        | some o =>
          cases h1 : loads o with
          | some v => simp [he, hl, ha, ho, h1, firstSome]
          | none =>
            cases h2 : loads (fixTrailingCommas o) with
            | some v => simp [he, hl, ha, ho, h1, h2, firstSome]
            | none => simp [he, hl, ha, ho, h1, h2, firstSome]
        | none => simp [he, hl, ha, ho, firstSome]
  · simp [he]

/-- Witness for C5's amended statement at a concrete repaired input
(the spec's Scenario 5 text: prose prefix, trailing comma). -/
theorem safeParse_strategy_order_witness :
    safe_parse_json pyLoads
        "Here are the findings: [\x7b\"issue\":\"X\",\"severity\":\"Low\",\"suggestion\":\"Y\",\"citation\":\"\"\x7d,]" =
      safeParseSpecOrder greedySpan pyLoads
        "Here are the findings: [\x7b\"issue\":\"X\",\"severity\":\"Low\",\"suggestion\":\"Y\",\"citation\":\"\"\x7d,]" :=
  safeParse_strategy_order pyLoads _

/-- C9: keyword detection is monotone — a label detected on `t` is
still detected on `t ++ u`. -/
theorem detect_monotone (t u name : String)
    (h : name ∈ detect_doc_type_from_text t) :
    name ∈ detect_doc_type_from_text (t ++ u) := by
  simp only [detect_doc_type_from_text, List.mem_map, List.mem_filter] at h ⊢
  obtain ⟨p, ⟨hmem, hkw⟩, hname⟩ := h
  refine ⟨p, ⟨hmem, ?_⟩, hname⟩
  simp only [List.any_eq_true] at hkw ⊢
  obtain ⟨kw, hkwmem, hocc⟩ := hkw
  refine ⟨kw, hkwmem, ?_⟩
  rw [strOccursB_iff] at hocc ⊢
  rw [pyLower_data_append]
  exact hocc.trans (List.prefix_append _ _).isInfix

/-- Witness for C9 at a concrete text extension. -/
theorem detect_monotone_witness :
    "NDA" ∈ detect_doc_type_from_text "this nda" ∧
    "NDA" ∈ detect_doc_type_from_text ("this nda" ++ " extra") :=
  ⟨by decide, detect_monotone "this nda" " extra" "NDA" (by decide)⟩

/-- C7: the missing list of the checklist comparison is exactly the
set difference `required − uploaded`, and it is empty iff every
required document type was uploaded. -/
theorem checklist_missing_correct (process : String) (uploaded : List String) :
    (∀ x, x ∈ (checklist_comparison_for_process process uploaded).2.1 ↔
      (x ∈ (checklist_comparison_for_process process uploaded).1 ∧ x ∉ uploaded)) ∧
    ((checklist_comparison_for_process process uploaded).2.1 = [] ↔
      ∀ x ∈ (checklist_comparison_for_process process uploaded).1, x ∈ uploaded) := by
  constructor
  · intro x
    simp [checklist_comparison_for_process, List.mem_filter, List.elem_iff]
  · simp [checklist_comparison_for_process, List.filter_eq_nil_iff, List.elem_iff]

/-- Witness for C7 at a concrete process and upload set. -/
theorem checklist_missing_correct_witness :
    ("Risk Assessment" ∈
        (checklist_comparison_for_process "Compliance & Risk"
          ["Data Protection Policy", "Compliance Policy"]).2.1 ↔
      ("Risk Assessment" ∈
          (checklist_comparison_for_process "Compliance & Risk"
            ["Data Protection Policy", "Compliance Policy"]).1 ∧
        "Risk Assessment" ∉ ["Data Protection Policy", "Compliance Policy"])) :=
  (checklist_missing_correct "Compliance & Risk"
    ["Data Protection Policy", "Compliance Policy"]).1 "Risk Assessment"

/-- On any dict built by `mkIssue`, `isLowSeverity` just tests the
severity string. -/
theorem isLowSeverity_mkIssue (pidx : Int) (i sev sug cit : String) :
    isLowSeverity (mkIssue pidx i sev sug cit) = (sev == "Low") := rfl

/-- A guarded singleton block with non-Low severity contributes
nothing to the Low-severity filter. -/
theorem filter_low_if_singleton (c : Bool) (d0 : PyDict) (h0 : isLowSeverity d0 = false) :
    (if c = true then [d0] else []).filter isLowSeverity = [] := by
  cases c <;> simp [List.filter_cons, h0]

/-- A doubly guarded singleton block with non-Low severity contributes
nothing to the Low-severity filter. -/
theorem filter_low_if_if_singleton (c1 c2 : Bool) (d0 : PyDict)
    (h0 : isLowSeverity d0 = false) :
    (if c1 = true then (if c2 = true then [d0] else []) else []).filter isLowSeverity = [] := by
  cases c1 <;> cases c2 <;> simp [List.filter_cons, h0]

/-- C8: whenever some phrase of the fixed ambiguous-phrase list occurs
in the lowercased clause, the heuristic engine emits exactly one
Low-severity issue, namely the ambiguous-language issue for the first
matching phrase in list order. -/
theorem heuristics_ambiguous_single (clause : String) (pidx : Int)
    (h : ambiguous_phrases.any (fun p => strOccursB p (pyLower clause)) = true) :
    ∃ p, ambiguous_phrases.find? (fun q => strOccursB q (pyLower clause)) = some p ∧
      strOccursB p (pyLower clause) = true ∧
      (simple_heuristic_checks clause pidx).filter isLowSeverity =
        [ambiguousIssue pidx p] := by
  have hs : (ambiguous_phrases.find? (fun q => strOccursB q (pyLower clause))).isSome := by
    rw [List.find?_isSome]
    simpa [List.any_eq_true] using h
  obtain ⟨ph, hp⟩ := Option.isSome_iff_exists.mp hs
  refine ⟨ph, hp, by simpa using List.find?_some hp, ?_⟩
  simp only [simple_heuristic_checks]
  rw [hp]
  rw [List.filter_append, List.filter_append, List.filter_append, List.filter_append]
  rw [filter_low_if_singleton _ _ (by rfl), filter_low_if_singleton _ _ (by rfl),
    filter_low_if_if_singleton _ _ _ (by rfl), filter_low_if_singleton _ _ (by rfl)]
  simp [List.filter_cons, ambiguousIssue, isLowSeverity_mkIssue]

/-- Witness for C8: the spec's Scenario 2 clause yields exactly the
one Low-severity issue citing "reasonable endeavours". -/
theorem heuristics_ambiguous_single_witness :
    ambiguous_phrases.any (fun p => strOccursB p (pyLower clauseScenario2)) = true ∧
    (simple_heuristic_checks clauseScenario2 7).filter isLowSeverity =
      [ambiguousIssue 7 "reasonable endeavours"] ∧
    simple_heuristic_checks clauseScenario2 7 = [ambiguousIssue 7 "reasonable endeavours"] := by
  obtain ⟨p, hp, _, hfil⟩ := heuristics_ambiguous_single clauseScenario2 7 (by decide)
  have hp2 : ambiguous_phrases.find? (fun q => strOccursB q (pyLower clauseScenario2)) =
      some "reasonable endeavours" := by decide
  rw [hp] at hp2
  refine ⟨by decide, ?_, by decide⟩
  rw [hfil, Option.some.inj hp2]

/-- Every member of a joined-and-quoted list appears in the result
surrounded by quote characters. -/
theorem quoted_mem_join :
    ∀ (l : List String) (d : String), d ∈ l →
      ("\x27".data ++ d.data ++ "\x27".data) <:+:
        ("\x27".data ++ (pyJoin "\x27, \x27" l).data ++ "\x27".data) := by
  intro l
  induction l with
  | nil =>
    intro d hd
    cases hd
  | cons a rest ih =>
    intro d hd
    cases rest with
    | nil =>
      have hda : d = a := by simpa using hd
      subst hda
      simp only [pyJoin]
      exact List.infix_refl _
    | cons b rest2 =>
      rcases List.mem_cons.mp hd with hda | hdr
      · subst hda
        refine ⟨[], ", ".data ++ "\x27".data ++
          (pyJoin "\x27, \x27" (b :: rest2)).data ++ "\x27".data, ?_⟩
        have hsep : ("\x27, \x27" : String).data =
            "\x27".data ++ ", ".data ++ "\x27".data := rfl
        simp [pyJoin, String.data_append, hsep, List.append_assoc]
      · refine (ih d hdr).trans ?_
        refine ⟨"\x27".data ++ a.data ++ "\x27".data ++ ", ".data, [], ?_⟩
        have hsep : ("\x27, \x27" : String).data =
            "\x27".data ++ ", ".data ++ "\x27".data := rfl
        simp [pyJoin, String.data_append, hsep, List.append_assoc]

/-- C6 (amended): the checklist message reports the *number of
uploaded document types* (not the number of required documents found)
out of the number required, names every missing document verbatim in
quotes, and confirms completeness when nothing is missing. -/
theorem checklistMessage_content (process : String) (uploaded : List String) :
    ((checklist_comparison_for_process process uploaded).2.1 ≠ [] →
      build_user_checklist_message process uploaded =
        checklistIntro process ++
          missingMsg uploaded.length (checklistGet process).length
            (checklist_comparison_for_process process uploaded).2.1 ∧
      ("uploaded " ++ toString uploaded.length ++ " out of " ++
          toString (checklistGet process).length ++ " required documents").data <:+:
        (build_user_checklist_message process uploaded).data ∧
      (∀ d ∈ (checklist_comparison_for_process process uploaded).2.1,
        ("\x27".data ++ d.data ++ "\x27".data) <:+:
          (build_user_checklist_message process uploaded).data)) ∧
    ((checklist_comparison_for_process process uploaded).2.1 = [] →
      build_user_checklist_message process uploaded =
        checklistIntro process ++
          "All required documents (" ++ toString (checklistGet process).length ++
          ") appear to be uploaded.") := by
  constructor
  · intro hm
    have hne : ((checklist_comparison_for_process process uploaded).2.1).isEmpty = false := by
      cases hmiss : (checklist_comparison_for_process process uploaded).2.1 with
      | nil => exact absurd hmiss hm
      | cons x xs => rfl
    have hmsg : build_user_checklist_message process uploaded =
        checklistIntro process ++
          missingMsg uploaded.length (checklistGet process).length
            (checklist_comparison_for_process process uploaded).2.1 := by
      simp only [build_user_checklist_message]
      rw [hne]
      rfl
    refine ⟨hmsg, ?_, ?_⟩
    · rw [hmsg]
      refine ⟨(checklistIntro process ++ "Based on our reference list, you have ").data,
        (". The missing document(s) appears to be: " ++
          ("\x27" ++ pyJoin "\x27, \x27"
            (checklist_comparison_for_process process uploaded).2.1 ++ "\x27") ++ ".").data, ?_⟩
      simp [missingMsg, String.data_append, List.append_assoc]
    · intro d hd
      rw [hmsg]
      refine (quoted_mem_join _ d hd).trans ?_
      refine ⟨(checklistIntro process ++ "Based on our reference list, you have " ++
          ("uploaded " ++ toString uploaded.length ++ " out of " ++
            toString (checklistGet process).length ++ " required documents") ++
          ". The missing document(s) appears to be: ").data, ".".data, ?_⟩
      simp [missingMsg, String.data_append, List.append_assoc]
  · intro hm
    have hne : ((checklist_comparison_for_process process uploaded).2.1).isEmpty = true := by
      rw [hm]
      rfl
    simp only [build_user_checklist_message]
    rw [hne]
    rfl

set_option maxRecDepth 8192 in
/-- C6 counterexample: for the `"Licensing"` process with three
uploads none of which is required, the message reports "uploaded 3
out of 2" although zero required documents were found — the character
`0` does not occur in the message at all, so the message cannot be
stating the found count. -/
theorem checklistMessage_found_count_cex :
    ((checklistGet "Licensing").filter (fun d => uploadsLicensingCex.contains d)).length = 0 ∧
    strOccursB "uploaded 3 out of 2 required documents"
      (build_user_checklist_message "Licensing" uploadsLicensingCex) = true ∧
    strOccursB "0" (build_user_checklist_message "Licensing" uploadsLicensingCex) = false :=
  ⟨by decide, by decide, by decide⟩

/-- Witness for C6's amended statement at a concrete process. -/
theorem checklistMessage_content_witness :
    (checklist_comparison_for_process "Licensing" ["NDA"]).2.1 ≠ [] ∧
    ("\x27".data ++ ("Licensing Application Form" : String).data ++ "\x27".data) <:+:
      (build_user_checklist_message "Licensing" ["NDA"]).data :=
  ⟨by decide,
    ((checklistMessage_content "Licensing" ["NDA"]).1 (by decide)).2.2
      "Licensing Application Form" (by decide)⟩
